import Mathlib

/-!
Verification of the routing and classification engine of the group-chat /
agent bridge.  The definitions below are a shallow embedding of the
TypeScript sources: the judge state machine (`src/judge.ts`, shipped as
`src/unnamed/part_002`) and the message router (`src/watcher.ts`).
Strings are modelled with Lean `String` (JS `slice` counts UTF-16 code
units, Lean `take` counts characters; the texts involved make this
immaterial), JS `trim` with `jsTrim`, and the 10-second `setTimeout`
expiry of the dedup set with an explicit clock value in milliseconds.
-/

/-! ## Judge state machine (src/judge.ts) -/

/-- `JudgeState` from judge.ts: `"IDLE" | "PLANNING"`. -/
inductive JudgeState where
  | IDLE
  | PLANNING
deriving DecidableEq, Repr

/-- `JudgeAction` from judge.ts: `"FORWARD" | "IGNORE" | "CONCLUDE"`. -/
inductive JudgeAction where
  | FORWARD
  | IGNORE
  | CONCLUDE
deriving DecidableEq, Repr

/-- `MessageDirection` from judge.ts: `"inbound" | "outbound"`. -/
inductive MessageDirection where
  | inbound
  | outbound
deriving DecidableEq, Repr

/-- `LLMJudge.applyTransition` (judge.ts lines 120-127): the only state
changes are IDLE + FORWARD -> PLANNING and PLANNING + CONCLUDE -> IDLE;
everything else leaves the state unchanged. -/
def applyTransition (s : JudgeState) (a : JudgeAction) : JudgeState :=
  if s = .IDLE ∧ a = .FORWARD then .PLANNING
  else if s = .PLANNING ∧ a = .CONCLUDE then .IDLE
  else s

/-- The string a `JudgeAction` stands for at runtime (TS actions are the
literal strings). -/
def actionStr : JudgeAction → String
  | .FORWARD => "FORWARD"
  | .IGNORE => "IGNORE"
  | .CONCLUDE => "CONCLUDE"

/-- Rendering of a `JudgeState`, as interpolated into logs and prompts. -/
def stateStr : JudgeState → String
  | .IDLE => "IDLE"
  | .PLANNING => "PLANNING"

/-- Runtime-level transition: TypeScript never validates the action string
returned by the oracle (`parsed.action as JudgeAction` is a cast, not a
check), so at runtime `applyTransition` receives an arbitrary string, or
`undefined` when the parsed object lacks an `action` key (modelled as
`none`).  The `===` comparisons in the source only match the two literal
strings below. -/
def applyTransitionS (s : JudgeState) (a : Option String) : JudgeState :=
  if s = .IDLE ∧ a = some "FORWARD" then .PLANNING
  else if s = .PLANNING ∧ a = some "CONCLUDE" then .IDLE
  else s

/-- Action-level model of `LLMJudge.classify` (judge.ts lines 65-72): call
the oracle (`callLLM`, an opaque external service receiving the message,
the direction, and the current state), then apply the transition and
return the action.  The oracle is passed as a function parameter. -/
def classify (oracle : String → MessageDirection → JudgeState → JudgeAction)
    (message : String) (direction : MessageDirection) (s : JudgeState) :
    JudgeAction × JudgeState :=
  let a := oracle message direction s
  (a, applyTransition s a)

/-! ## Oracle-response parsing (LLMJudge.callLLM, judge.ts lines 82-110)

The source trims the response text, matches the regex `\{[^}]*\}`
(the first `{` that is eventually followed by a `}`, up to the first such
`}`), throws when there is no match, runs `JSON.parse` on the match and
returns `parsed.action` with an unchecked cast. -/

/-- JS `String.prototype.trim`: drop whitespace from both ends.  (JS trims
the full Unicode whitespace class; the ASCII class suffices for the texts
involved.) -/
def jsTrim (s : String) : String :=
  String.mk
    (((s.data.dropWhile Char.isWhitespace).reverse.dropWhile
        Char.isWhitespace).reverse)

/-- JS `s.slice(0, n)` (and the prefix use of `take`): the first `n`
characters. -/
def strTake (s : String) (n : Nat) : String := String.mk (s.data.take n)

/-- Left-brace character, `0x7b`. -/
def lbrace : Char := Char.ofNat 123

/-- Right-brace character, `0x7d`. -/
def rbrace : Char := Char.ofNat 125

/-- Double-quote character, `0x22`. -/
def dquote : Char := Char.ofNat 34

/-- Backslash character, `0x5c`. -/
def bslash : Char := Char.ofNat 92

/-- Collect characters up to and including the first right brace;
`none` when no right brace follows.  Helper for the regex `\{[^}]*\}`. -/
def takeThroughRBrace : List Char → Option (List Char)
  | [] => none
  | c :: cs =>
    if c = rbrace then some [rbrace]
    else (takeThroughRBrace cs).map (c :: ·)

/-- Leftmost match of the regex `\{[^}]*\}` over a character list: the
first left brace that is eventually followed by a right brace, through the
first such right brace. -/
def firstBraceSpan : List Char → Option (List Char)
  | [] => none
  | c :: cs =>
    if c = lbrace then (takeThroughRBrace cs).map (lbrace :: ·)
    else firstBraceSpan cs

/-- `raw.match(/\{[^}]*\}/)` from judge.ts line 103, as a `String`
operation. -/
def extractBraceSpan (s : String) : Option String :=
  (firstBraceSpan s.data).map fun l => String.mk l

/-- JSON whitespace (space, tab, line feed, carriage return). -/
def isJsonWs (c : Char) : Bool :=
  c = ' ' || c = Char.ofNat 9 || c = Char.ofNat 10 || c = Char.ofNat 13

/-- Drop leading JSON whitespace. -/
def skipWs (l : List Char) : List Char := l.dropWhile isJsonWs

/-- Body of a JSON string literal after its opening quote: the characters
up to the closing quote plus the remainder.  Escape sequences are outside
the modelled domain (`none`). -/
def takeStringBody : List Char → Option (List Char × List Char)
  | [] => none
  | c :: cs =>
    if c = dquote then some ([], cs)
    else if c = bslash then none
    else (takeStringBody cs).map fun p => (c :: p.1, p.2)

/-- Models `JSON.parse(jsonMatch[0]).action` (judge.ts lines 108-109) on
the extracted brace span.  The span never contains an inner brace (the
regex stops at the first right brace), so the only object shapes that can
reach `JSON.parse` are flat; this model covers the empty object (whose
`action` field is `undefined`, returned as `some none`) and the single-key
object `\x7b"action": "<string>"\x7d` with an escape-free string value —
the shapes the oracle contract and the theorems below exercise.  Result
`none` models a `JSON.parse` failure; shapes outside this domain are not
relied on by any theorem. -/
def parseActionObj (l : List Char) : Option (Option String) :=
  match l with
  | [] => none
  | c :: rest =>
    if c = lbrace then
      match skipWs rest with
      | [] => none
      | c1 :: r1 =>
        if c1 = rbrace then (if r1 = [] then some none else none)
        else if c1 = dquote then
          match takeStringBody r1 with
          | none => none
          | some (key, r2) =>
            if key = "action".data then
              match skipWs r2 with
              | [] => none
              | c3 :: r4 =>
                if c3 = ':' then
                  match skipWs r4 with
                  | [] => none
                  | c5 :: r6 =>
                    if c5 = dquote then
                      match takeStringBody r6 with
                      | none => none
                      | some (val, r7) =>
                        match skipWs r7 with
                        | [c8] =>
                          if c8 = rbrace then some (some (String.mk val))
                          else none
                        | _ => none
                    else none
                else none
            else none
        else none
    else none

/-- Parse pipeline of `LLMJudge.callLLM` (judge.ts lines 98-110) applied
to the oracle's raw response text: trim, find the first brace span (throw
the `unparseable response` error when there is none), `JSON.parse` it, and
return its `action` field with no validation. -/
def callLLMRun (raw0 : String) : Except String (Option String) :=
  let raw := jsTrim raw0
  match extractBraceSpan raw with
  | none => .error ("LLM Judge returned unparseable response: " ++ raw)
  | some span =>
    match parseActionObj span.data with
    | none => .error "SyntaxError: invalid JSON"
    | some act => .ok act

/-- String-level model of `LLMJudge.classify` run against a fixed raw
oracle response: on a parse failure the exception propagates before
`applyTransition` runs, so the state is returned unchanged; on success the
unvalidated action string is returned and the transition applied. -/
def classifyRunS (s : JudgeState) (raw : String) :
    Except String (Option String) × JudgeState :=
  match callLLMRun raw with
  | .error e => (.error e, s)
  | .ok a => (.ok a, applyTransitionS s a)

/-! ## Router (src/watcher.ts) -/

/-- A transcript entry pushed into `messageBuffer` (watcher.ts line 60). -/
structure TranscriptEntry where
  sender : String
  text : String
deriving DecidableEq, Repr

/-- `MAX_BUFFER` (watcher.ts line 12). -/
def MAX_BUFFER : Nat := 20

/-- The `while (messageBuffer.length > MAX_BUFFER) messageBuffer.shift()`
loop (watcher.ts lines 61-63): repeatedly drop the front while over
capacity. -/
def evictOver : List TranscriptEntry → List TranscriptEntry
  | [] => []
  | x :: xs => if (x :: xs).length > MAX_BUFFER then evictOver xs else x :: xs

/-- `messageBuffer.push(...)` followed by the eviction loop. -/
def pushBuffer (b : List TranscriptEntry) (e : TranscriptEntry) :
    List TranscriptEntry :=
  evictOver (b ++ [e])

/-- Buffer obtained by pushing a sequence of entries into an empty
buffer. -/
def bufferOfPushes (es : List TranscriptEntry) : List TranscriptEntry :=
  es.foldl pushBuffer []

/-- `messageBuffer.map((m) => sender: text).join("\n")`
(watcher.ts lines 71-73). -/
def renderTranscript (b : List TranscriptEntry) : String :=
  String.intercalate "\n" (b.map fun m => m.sender ++ ": " ++ m.text)

/-- The dedup fingerprint `text.trim().slice(0, 100)` (watcher.ts
lines 26 and 32). -/
def sentKey (text : String) : String := strTake (jsTrim text) 100

/-- `markAsSent(text)` (watcher.ts lines 25-29).  The model state `recent`
is the full history of `markAsSent` calls as (fingerprint, call-time-in-ms)
pairs; each call appends to the history.  The JS `Set.add` itself is a
no-op when the key is already present, but every call unconditionally
schedules a `setTimeout` that will `delete` the key 10000 ms later — both
facts are recovered from the history by `wasSentByUs` below, so the
history records every call. -/
def markAsSent (recent : List (String × Nat)) (now : Nat) (text : String) :
    List (String × Nat) :=
  (sentKey text, now) :: recent

/-- `wasSentByUs(text)` (watcher.ts lines 31-34): membership of the
fingerprint in the JS `Set` at time `now`, derived from the mark history.
For a given key the timeline holds an add event at each mark time `p.2`
and a delete event at each deadline `q.2 + 10000` (every `markAsSent`
call schedules its own deletion timer, even a duplicate add); the key is
in the set iff the latest event at or before `now` is an add: some mark
`p` with `p.2 ≤ now` such that every same-key deadline that has already
fired (`q.2 + 10000 ≤ now`) fired at or before `p.2` (so the add at `p.2`
re-established membership).  A deadline landing exactly on a mark time is
resolved in favor of the add; no theorem below depends on such a tie. -/
def wasSentByUs (recent : List (String × Nat)) (now : Nat) (text : String) :
    Bool :=
  recent.any fun p =>
    p.1 == sentKey text && decide (p.2 ≤ now) &&
      recent.all fun q =>
        !(q.1 == sentKey text) || decide (now < q.2 + 10000) ||
          decide (q.2 + 10000 ≤ p.2)

/-- The two configured channel identifiers (`GROUP_CHAT_ID` and
`POKE_CONTACT_ID` environment variables; group-chat.ts exits when the
former is missing, and a missing/empty `POKE_CONTACT_ID` — falsy in JS —
is modelled as the empty string). -/
structure BridgeConfig where
  groupChatId : String
  pokeContactId : String
deriving DecidableEq, Repr

/-- JS `hay.includes(needle)`: some suffix of `hay` starts with
`needle`. -/
def strIncludes (hay needle : String) : Bool :=
  (List.range (hay.data.length + 1)).any fun i =>
    needle.data.isPrefixOf (hay.data.drop i)

/-- `isPokeDM(chatId)` (watcher.ts lines 38-41): false when
`POKE_CONTACT_ID` is falsy, else `chatId.includes(POKE_CONTACT_ID)`. -/
def isPokeDM (cfg : BridgeConfig) (chatId : String) : Bool :=
  if cfg.pokeContactId = "" then false
  else strIncludes chatId cfg.pokeContactId

/-- Shape of the inbound events delivered by the channel adapter
(watcher.ts lines 45-50); `text` is `string | null`. -/
structure InMsg where
  sender : String
  text : Option String
  chatId : String
  isFromMe : Bool
deriving DecidableEq, Repr

/-- The module-level mutable state of watcher.ts: the judge's state, the
rolling `messageBuffer`, and the `recentlySent` dedup set. -/
structure RouterState where
  judge : JudgeState
  buffer : List TranscriptEntry
  recent : List (String × Nat)
deriving DecidableEq, Repr

/-- Observable effects of one `handleMessage` run, in program order:
console logs, dedup registrations, and the two sends. -/
inductive Effect where
  | log (line : String)
  | mark (key : String)
  | sendPoke (text : String)
  | sendGroup (text : String)
deriving DecidableEq, Repr

/-- Result of one `handleMessage` run: completion status (`error` when an
exception escapes the async handler), the mutable state as left behind
(mutations performed before a throw persist), and the ordered effect
trace up to the completion or the throw. -/
structure HandleResult where
  status : Except String Unit
  state : RouterState
  effects : List Effect
deriving Repr

/-- The message composed for the agent channel (watcher.ts lines 75-77). -/
def composePokeMessage (sender text : String) (buf : List TranscriptEntry) :
    String :=
  "Here\x27s the latest group chat conversation:\n\n" ++ renderTranscript buf ++
    "\n\nThe most recent message is from " ++ sender ++ ": \x22" ++ text ++ "\x22"

/-- `handleMessage` (watcher.ts lines 45-102).  The judge's
`classify(msg.text, "inbound")` call is abstracted by the `oracle`
parameter: `.ok a` when the oracle call returns action `a` (the state
transition it performs inside `classify` is reproduced here via
`applyTransition`), `.error e` when `callLLM` throws — the source has no
try/catch, so the exception escapes the handler.  Note that on the agent
(Poke DM) route the `judge.classify(msg.text, "outbound")` call is
commented out in the source (watcher.ts lines 94-96), so the oracle is
never consulted there. -/
def handleMessage (cfg : BridgeConfig) (oracle : Except String JudgeAction)
    (now : Nat) (st : RouterState) (msg : InMsg) : HandleResult :=
  match msg.text with
  | none => ⟨.ok (), st, []⟩
  | some text =>
    if jsTrim text = "" then ⟨.ok (), st, []⟩
    else if msg.isFromMe then ⟨.ok (), st, []⟩
    else if msg.chatId = cfg.groupChatId then
      let e0 := Effect.log ("[GC ←] " ++ msg.sender ++ ": " ++ text)
      let buf' := pushBuffer st.buffer ⟨msg.sender, text⟩
      match oracle with
      | .error err => ⟨.error err, { st with buffer := buf' }, [e0]⟩
      | .ok action =>
        let judge' := applyTransition st.judge action
        let e1 := Effect.log
          ("[Judge] " ++ actionStr action ++ " (state: " ++ stateStr judge' ++ ")")
        let st' : RouterState := { st with buffer := buf', judge := judge' }
        if action = .IGNORE then ⟨.ok (), st', [e0, e1]⟩
        else
          let pokeMessage := composePokeMessage msg.sender text buf'
          let key := sentKey pokeMessage
          let e3 := Effect.log
            ("[Poke →] Forwarding " ++ toString buf'.length ++ " msgs to Poke...")
          ⟨.ok (), { st' with recent := markAsSent st'.recent now pokeMessage },
            [e0, e1, Effect.mark key, e3, Effect.sendPoke pokeMessage]⟩
    else if isPokeDM cfg msg.chatId then
      let e0 := Effect.log ("[Poke ←] " ++ strTake text 100 ++ "...")
      if wasSentByUs st.recent now text then
        ⟨.ok (), st, [e0, Effect.log "[Skip] Echo of our own message"]⟩
      else
        ⟨.ok (), { st with recent := markAsSent st.recent now text },
          [e0, Effect.mark (sentKey text), Effect.sendGroup text]⟩
    else ⟨.ok (), st, []⟩

/-- The texts sent to the agent (Poke) channel within a trace. -/
def pokeSends (l : List Effect) : List String :=
  l.filterMap fun e => match e with
    | .sendPoke t => some t
    | _ => none

/-- The texts sent to the group channel within a trace. -/
def groupSends (l : List Effect) : List String :=
  l.filterMap fun e => match e with
    | .sendGroup t => some t
    | _ => none

/-- Trace scanner for the registration-before-send discipline: walking
the trace left to right with the set of fingerprints marked so far, every
send's fingerprint must already have been marked. -/
def guardOk (marked : List String) : List Effect → Bool
  | [] => true
  | .log _ :: rest => guardOk marked rest
  | .mark k :: rest => guardOk (k :: marked) rest
  | .sendPoke t :: rest => marked.contains (sentKey t) && guardOk marked rest
  | .sendGroup t :: rest => marked.contains (sentKey t) && guardOk marked rest

/-! ## Theorems -/

/-- C1: over every pair of (current state, action) in
IDLE/PLANNING x FORWARD/IGNORE/CONCLUDE, `applyTransition` yields exactly
the state declared by the spec's table: IDLE+FORWARD gives PLANNING,
PLANNING+CONCLUDE gives IDLE, and the four remaining cells leave the
state unchanged. -/
theorem C1_transition_table :
    applyTransition .IDLE .FORWARD = .PLANNING ∧
    applyTransition .IDLE .IGNORE = .IDLE ∧
    applyTransition .IDLE .CONCLUDE = .IDLE ∧
    applyTransition .PLANNING .FORWARD = .PLANNING ∧
    applyTransition .PLANNING .IGNORE = .PLANNING ∧
    applyTransition .PLANNING .CONCLUDE = .IDLE := by
  decide

/-- C2: evaluation of the router at the spec's scenario D input — the
agent channel delivers the novel text "All booked! Confirmation #R7234"
while the state is PLANNING, with an oracle that would return CONCLUDE
for the outbound direction.  The text is relayed verbatim to the group
channel exactly once, but the classifier state remains PLANNING: the
`judge.classify(msg.text, "outbound")` call on this route is commented
out in watcher.ts (lines 94-96, marked `TODO: re-enable judge here to
detect CONCLUDE`), so the oracle is never consulted and the claimed
transition to IDLE does not happen. -/
theorem C2_outbound_conclude_code_behavior :
    (let r := handleMessage ⟨"chatG", "poke"⟩ (.ok .CONCLUDE) 0
        ⟨.PLANNING, [], []⟩
        ⟨"Poke", some "All booked! Confirmation #R7234", "iMessage;-;poke",
          false⟩
     r.status = .ok () ∧
     groupSends r.effects = ["All booked! Confirmation #R7234"] ∧
     pokeSends r.effects = [] ∧
     r.state.judge = .PLANNING) :=
  ⟨rfl, rfl, rfl, rfl⟩

/-- C3 counterexample: on an inbound group message whose classification
throws, `handleMessage` does not recover: its status is the propagated
error (the source has no try/catch around `judge.classify`), and its
trace holds only the inbound-message log — no failure marker of any kind,
unlike a genuine IGNORE run, which completes normally and logs the judge
decision.  This refutes the claim that the failure is absorbed and logged
distinctly. -/
theorem C3_failure_counterexample :
    (let r := handleMessage ⟨"g", "p"⟩ (.error "boom") 0 ⟨.IDLE, [], []⟩
        ⟨"alice", some "plan dinner", "g", false⟩
     r.status = .error "boom" ∧
     r.effects = [Effect.log "[GC ←] alice: plan dinner"]) ∧
    (let ri := handleMessage ⟨"g", "p"⟩ (.ok .IGNORE) 0 ⟨.IDLE, [], []⟩
        ⟨"alice", some "plan dinner", "g", false⟩
     ri.status = .ok () ∧
     ri.effects = [Effect.log "[GC ←] alice: plan dinner",
                   Effect.log "[Judge] IGNORE (state: IDLE)"]) :=
  ⟨⟨rfl, rfl⟩, ⟨rfl, rfl⟩⟩

/-- C3 amended: when the classifier call throws on an inbound group
message, the router does not forward the message (zero sends on either
channel) and the classifier state and dedup set are unchanged, with the
transcript entry already appended; but the error propagates out of
`handleMessage` uncaught, and the only effect emitted is the
inbound-message log — there is no distinct failure log. -/
theorem C3_failure_amended (cfg : BridgeConfig) (st : RouterState)
    (now : Nat) (sender chatId text err : String)
    (hnb : ¬ jsTrim text = "") (hch : chatId = cfg.groupChatId) :
    (let r := handleMessage cfg (.error err) now st
        ⟨sender, some text, chatId, false⟩
     r.status = .error err ∧
     pokeSends r.effects = [] ∧
     groupSends r.effects = [] ∧
     r.state.judge = st.judge ∧
     r.state.recent = st.recent ∧
     r.state.buffer = pushBuffer st.buffer ⟨sender, text⟩ ∧
     r.effects = [Effect.log ("[GC ←] " ++ sender ++ ": " ++ text)]) := by
  subst hch
  simp [handleMessage, hnb, pokeSends, groupSends]

/-- C3 witness: the amended theorem at a concrete input. -/
theorem C3_failure_witness :
    (¬ jsTrim "plan dinner" = "") ∧ ("g" : String) = (⟨"g", "p"⟩ : BridgeConfig).groupChatId ∧
    (let r := handleMessage ⟨"g", "p"⟩ (.error "boom") 7 ⟨.PLANNING, [], []⟩
        ⟨"alice", some "plan dinner", "g", false⟩
     r.status = .error "boom" ∧
     pokeSends r.effects = [] ∧
     groupSends r.effects = [] ∧
     r.state.judge = (⟨.PLANNING, [], []⟩ : RouterState).judge ∧
     r.state.recent = (⟨.PLANNING, [], []⟩ : RouterState).recent ∧
     r.state.buffer = pushBuffer [] ⟨"alice", "plan dinner"⟩ ∧
     r.effects = [Effect.log ("[GC ←] " ++ "alice" ++ ": " ++ "plan dinner")]) :=
  ⟨by decide, rfl,
    C3_failure_amended ⟨"g", "p"⟩ ⟨.PLANNING, [], []⟩ 7 "alice" "g"
      "plan dinner" "boom" (by decide) rfl⟩

/-! ### Parsing lemmas for C4 -/

theorem not_mem_head {α : Type} {a b : α} {l : List α} (h : a ∉ b :: l) :
    ¬ b = a :=
  fun hba => h (by rw [hba]; exact List.mem_cons_self _ _)

theorem not_mem_tail {α : Type} {a b : α} {l : List α} (h : a ∉ b :: l) :
    a ∉ l :=
  fun hm => h (List.mem_cons_of_mem _ hm)

theorem firstBraceSpan_append (pre l : List Char) (h : lbrace ∉ pre) :
    firstBraceSpan (pre ++ l) = firstBraceSpan l := by
  induction pre with
  | nil => rfl
  | cons c cs ih =>
    rw [List.cons_append, firstBraceSpan, if_neg (not_mem_head h),
      ih (not_mem_tail h)]

theorem takeThroughRBrace_append (mid rest : List Char) (h : rbrace ∉ mid) :
    takeThroughRBrace (mid ++ rbrace :: rest) = some (mid ++ [rbrace]) := by
  induction mid with
  | nil => simp [takeThroughRBrace]
  | cons c cs ih =>
    rw [List.cons_append, takeThroughRBrace, if_neg (not_mem_head h),
      ih (not_mem_tail h)]
    rfl

theorem takeStringBody_append (xs rest : List Char) (h1 : dquote ∉ xs)
    (h2 : bslash ∉ xs) :
    takeStringBody (xs ++ dquote :: rest) = some (xs, rest) := by
  induction xs with
  | nil => simp [takeStringBody]
  | cons c cs ih =>
    rw [List.cons_append, takeStringBody, if_neg (not_mem_head h1),
      if_neg (not_mem_head h2), ih (not_mem_tail h1) (not_mem_tail h2)]
    rfl

theorem skipWs_cons_of_not_ws (c : Char) (l : List Char)
    (h : isJsonWs c = false) : skipWs (c :: l) = c :: l := by
  simp [skipWs, List.dropWhile_cons, h]

theorem skipWs_cons_of_ws (c : Char) (l : List Char)
    (h : isJsonWs c = true) : skipWs (c :: l) = skipWs l := by
  simp [skipWs, List.dropWhile_cons, h]

/-- The character-list form of the wrapped oracle object
`\x7b"action": "<val>"\x7d`. -/
def actionObjData (val : List Char) : List Char :=
  lbrace :: dquote ::
    ("action".data ++ dquote :: ':' :: ' ' :: dquote :: (val ++ [dquote, rbrace]))

theorem parseActionObj_actionObjData (val : List Char)
    (hv1 : dquote ∉ val) (hv2 : bslash ∉ val) :
    parseActionObj (actionObjData val) = some (some (String.mk val)) := by
  have h1 : takeStringBody
      ("action".data ++ dquote :: ':' :: ' ' :: dquote :: (val ++ [dquote, rbrace])) =
      some ("action".data, ':' :: ' ' :: dquote :: (val ++ [dquote, rbrace])) :=
    takeStringBody_append _ _ (by decide) (by decide)
  have h2 : takeStringBody (val ++ [dquote, rbrace]) = some (val, [rbrace]) := by
    have hsh : val ++ [dquote, rbrace] = val ++ dquote :: [rbrace] := rfl
    rw [hsh, takeStringBody_append _ _ hv1 hv2]
  rw [actionObjData, parseActionObj]
  rw [if_pos rfl, skipWs_cons_of_not_ws _ _ (by decide)]
  try dsimp only
  rw [if_neg (by decide), if_pos rfl, h1]
  try dsimp only
  rw [if_pos rfl, skipWs_cons_of_not_ws _ _ (by decide)]
  try dsimp only
  rw [if_pos rfl, skipWs_cons_of_ws _ _ (by decide),
    skipWs_cons_of_not_ws _ _ (by decide)]
  try dsimp only
  rw [if_pos rfl, h2]
  try dsimp only
  rw [skipWs_cons_of_not_ws _ _ (by decide)]
  try dsimp only
  rw [if_pos rfl]

/-- The part of `actionObjData` strictly between the braces, plus the
leading quote: used to apply `takeThroughRBrace_append`. -/
def midData (val : List Char) : List Char :=
  dquote :: ("action".data ++ dquote :: ':' :: ' ' :: dquote :: (val ++ [dquote]))

theorem rbrace_not_mem_midData (val : List Char) (hv3 : rbrace ∉ val) :
    rbrace ∉ midData val := by
  intro hm
  rw [midData] at hm
  rcases List.mem_cons.mp hm with h | hm
  · exact absurd h (by decide)
  rcases List.mem_append.mp hm with hm | hm
  · exact absurd hm (by decide)
  rcases List.mem_cons.mp hm with h | hm
  · exact absurd h (by decide)
  rcases List.mem_cons.mp hm with h | hm
  · exact absurd h (by decide)
  rcases List.mem_cons.mp hm with h | hm
  · exact absurd h (by decide)
  rcases List.mem_cons.mp hm with h | hm
  · exact absurd h (by decide)
  rcases List.mem_append.mp hm with hm | hm
  · exact hv3 hm
  · exact absurd hm (by decide)

theorem firstBraceSpan_actionObj (pre val post : List Char)
    (hpre : lbrace ∉ pre) (hv3 : rbrace ∉ val) :
    firstBraceSpan ((pre ++ actionObjData val) ++ post) =
      some (actionObjData val) := by
  rw [List.append_assoc, firstBraceSpan_append _ _ hpre]
  rw [actionObjData, List.cons_append, firstBraceSpan, if_pos rfl]
  have hsh : (dquote ::
        ("action".data ++ dquote :: ':' :: ' ' :: dquote :: (val ++ [dquote, rbrace]))) ++ post
      = midData val ++ rbrace :: post := by
    simp [midData]
  rw [hsh, takeThroughRBrace_append _ _ (rbrace_not_mem_midData val hv3)]
  simp [actionObjData, midData]

theorem callLLMRun_action_obj (raw : String) (pre val post : List Char)
    (hdata : (jsTrim raw).data = (pre ++ actionObjData val) ++ post)
    (hpre : lbrace ∉ pre) (hv1 : dquote ∉ val) (hv2 : bslash ∉ val)
    (hv3 : rbrace ∉ val) :
    callLLMRun raw = .ok (some (String.mk val)) := by
  simp only [callLLMRun, extractBraceSpan]
  rw [hdata, firstBraceSpan_actionObj _ _ _ hpre hv3]
  have hd : (String.mk (actionObjData val)).data = actionObjData val := rfl
  simp only [Option.map_some', hd, parseActionObj_actionObjData _ hv1 hv2]

/-- C4 counterexample: an oracle response whose JSON carries the
unrecognized action string "DANCE" does NOT make classification fail —
`callLLM` returns `parsed.action` with an unchecked cast, so the
classifier succeeds, returning the unrecognized string (the state is
still unchanged, because the transition only reacts to FORWARD and
CONCLUDE).  The claim that such responses fail with a
`ClassificationError` is therefore false. -/
theorem C4_unvalidated_action_counterexample :
    classifyRunS .IDLE "\x7b\x22action\x22: \x22DANCE\x22\x7d" =
      (.ok (some "DANCE"), .IDLE) ∧
    ¬ ("DANCE" = "FORWARD" ∨ "DANCE" = "IGNORE" ∨ "DANCE" = "CONCLUDE") :=
  ⟨rfl, by decide⟩

/-- C4 amended: (1) when the trimmed oracle response contains no
brace-delimited span at all, classification fails with the
`unparseable response` error and the state is unchanged; (2) when the
response carries a well-formed first action object — possibly surrounded
by prose (`pre`/`post`) — classification succeeds, locating and parsing
that object, and returns its action string WITHOUT validating it, even
when it is not one of the three recognized actions; (3) an action value
other than "FORWARD"/"CONCLUDE" (in particular any unrecognized string)
leaves the state unchanged. -/
theorem C4_parse_amended :
    (∀ (s : JudgeState) (raw : String),
      extractBraceSpan (jsTrim raw) = none →
      classifyRunS s raw =
        (.error ("LLM Judge returned unparseable response: " ++ jsTrim raw), s)) ∧
    (∀ (s : JudgeState) (raw : String) (pre val post : List Char),
      (jsTrim raw).data = (pre ++ actionObjData val) ++ post →
      lbrace ∉ pre → dquote ∉ val → bslash ∉ val → rbrace ∉ val →
      classifyRunS s raw =
        (.ok (some (String.mk val)), applyTransitionS s (some (String.mk val)))) ∧
    (∀ (s : JudgeState) (v : Option String),
      (∀ a : String, v = some a → ¬ a = "FORWARD" ∧ ¬ a = "CONCLUDE") →
      applyTransitionS s v = s) := by
  refine ⟨?_, ?_, ?_⟩
  · intro s raw h
    simp only [classifyRunS, callLLMRun, h]
  · intro s raw pre val post hdata hpre hv1 hv2 hv3
    simp only [classifyRunS, callLLMRun_action_obj raw pre val post hdata hpre hv1 hv2 hv3]
  · intro s v hv
    rw [applyTransitionS]
    rw [if_neg, if_neg]
    · rintro ⟨hs, hval⟩
      exact (hv _ hval).2 rfl
    · rintro ⟨hs, hval⟩
      exact (hv _ hval).1 rfl

/-- C4 witness: the amended theorem at concrete inputs — a response with
no JSON object, a response wrapping `\x7b"action": "PARTY"\x7d` in prose,
and the unrecognized value "PARTY" leaving PLANNING unchanged. -/
theorem C4_parse_amended_witness :
    classifyRunS .IDLE "no json here" =
      (.error ("LLM Judge returned unparseable response: " ++ jsTrim "no json here"), .IDLE) ∧
    classifyRunS .PLANNING "note \x7b\x22action\x22: \x22PARTY\x22\x7d end" =
      (.ok (some (String.mk "PARTY".data)),
        applyTransitionS .PLANNING (some (String.mk "PARTY".data))) ∧
    applyTransitionS .PLANNING (some "PARTY") = .PLANNING :=
  ⟨C4_parse_amended.1 .IDLE "no json here" (by decide),
   C4_parse_amended.2.1 .PLANNING "note \x7b\x22action\x22: \x22PARTY\x22\x7d end"
     "note ".data "PARTY".data " end".data (by decide) (by decide) (by decide)
     (by decide) (by decide),
   C4_parse_amended.2.2 .PLANNING (some "PARTY")
     (by intro a ha; cases ha; exact ⟨by decide, by decide⟩)⟩

/-- C5: on an inbound group message classified FORWARD, the router sends
exactly one message to the agent channel; the sent text contains the
rendered transcript (after the triggering entry was appended) and the
literal text of the triggering message; nothing goes to the group
channel; and from IDLE the classifier state transitions to PLANNING. -/
theorem C5_forward_send (cfg : BridgeConfig) (st : RouterState) (now : Nat)
    (sender chatId text : String)
    (hnb : ¬ jsTrim text = "") (hch : chatId = cfg.groupChatId) :
    (let r := handleMessage cfg (.ok .FORWARD) now st
        ⟨sender, some text, chatId, false⟩
     (∃ p, pokeSends r.effects = [p] ∧
        (∃ a b, p.data =
          a ++ (renderTranscript (pushBuffer st.buffer ⟨sender, text⟩)).data ++ b) ∧
        (∃ a b, p.data = a ++ text.data ++ b)) ∧
     groupSends r.effects = [] ∧
     (st.judge = .IDLE → r.state.judge = .PLANNING)) := by
  subst hch
  refine ⟨⟨composePokeMessage sender text (pushBuffer st.buffer ⟨sender, text⟩),
    ?_, ?_, ?_⟩, ?_, ?_⟩
  · simp [handleMessage, hnb, pokeSends]
  · refine ⟨("Here\x27s the latest group chat conversation:\n\n" : String).data,
      ("\n\nThe most recent message is from " ++ sender ++ ": \x22" ++ text ++
        "\x22" : String).data, ?_⟩
    simp [composePokeMessage, String.data_append]
  · refine ⟨("Here\x27s the latest group chat conversation:\n\n" : String).data ++
      (renderTranscript (pushBuffer st.buffer ⟨sender, text⟩)).data ++
      ("\n\nThe most recent message is from " ++ sender ++ ": \x22" : String).data,
      ("\x22" : String).data, ?_⟩
    simp [composePokeMessage, String.data_append]
  · simp [handleMessage, hnb, groupSends]
  · intro hidle
    simp [handleMessage, hnb, hidle, applyTransition]

/-- C5 witness: the theorem at the spec's scenario B input. -/
theorem C5_forward_send_witness :
    (¬ jsTrim "help us plan dinner Saturday" = "") ∧
    ("g" : String) = (⟨"g", "p"⟩ : BridgeConfig).groupChatId ∧
    (let r := handleMessage ⟨"g", "p"⟩ (.ok .FORWARD) 0 ⟨.IDLE, [], []⟩
        ⟨"alice", some "help us plan dinner Saturday", "g", false⟩
     (∃ p, pokeSends r.effects = [p] ∧
        (∃ a b, p.data =
          a ++ (renderTranscript (pushBuffer [] ⟨"alice", "help us plan dinner Saturday"⟩)).data ++ b) ∧
        (∃ a b, p.data = a ++ ("help us plan dinner Saturday" : String).data ++ b)) ∧
     groupSends r.effects = [] ∧
     ((⟨.IDLE, [], []⟩ : RouterState).judge = .IDLE → r.state.judge = .PLANNING)) :=
  ⟨by decide, rfl,
    C5_forward_send ⟨"g", "p"⟩ ⟨.IDLE, [], []⟩ 0 "alice" "g"
      "help us plan dinner Saturday" (by decide) rfl⟩

/-- C6: a message arriving on the agent (Poke DM) channel whose text's
fingerprint is in the dedup set — recorded by a `markAsSent` call at `t0`
and still live at `now` under the JS Set-plus-timer semantics: every
same-key deletion deadline that has already fired did so at or before
`t0` (instantiated at the recording itself, this forces
`now < t0 + 10000`, i.e. the recording is within the expiry window) — is
dropped: the handler completes normally, performs zero sends to either
channel, and leaves the entire router state unchanged.  Holds for every
oracle, since the judge is not consulted on this route. -/
theorem C6_dedup_drop (cfg : BridgeConfig) (oracle : Except String JudgeAction)
    (st : RouterState) (now t0 : Nat) (sender chatId text : String)
    (hnb : ¬ jsTrim text = "") (hng : ¬ chatId = cfg.groupChatId)
    (hpd : isPokeDM cfg chatId = true)
    (hrec : (sentKey text, t0) ∈ st.recent) (ht0 : t0 ≤ now)
    (hlive : ∀ q ∈ st.recent, q.1 = sentKey text → q.2 + 10000 ≤ now →
      q.2 + 10000 ≤ t0) :
    (let r := handleMessage cfg oracle now st
        ⟨sender, some text, chatId, false⟩
     r.status = .ok () ∧ groupSends r.effects = [] ∧
     pokeSends r.effects = [] ∧ r.state = st) := by
  have hw : wasSentByUs st.recent now text = true := by
    rw [wasSentByUs, List.any_eq_true]
    refine ⟨(sentKey text, t0), hrec, ?_⟩
    simp only [Bool.and_eq_true, beq_self_eq_true, decide_eq_true_eq,
      List.all_eq_true, true_and]
    refine ⟨ht0, ?_⟩
    intro q hq
    by_cases hk : q.1 = sentKey text
    · by_cases hf : q.2 + 10000 ≤ now
      · have hd := hlive q hq hk hf
        simp [hd]
      · have hlt : now < q.2 + 10000 := Nat.not_le.mp hf
        simp [hlt]
    · simp [hk]
  simp [handleMessage, hnb, hng, hpd, hw, pokeSends, groupSends]

/-- C6 witness: the theorem at the spec's scenario C input — a single
recording five seconds old, its deletion timer not yet fired. -/
theorem C6_dedup_drop_witness :
    (¬ jsTrim "All booked! Confirmation #R7234" = "") ∧
    (¬ ("iMessage;-;poke" : String) = (⟨"chatG", "poke"⟩ : BridgeConfig).groupChatId) ∧
    isPokeDM ⟨"chatG", "poke"⟩ "iMessage;-;poke" = true ∧
    (sentKey "All booked! Confirmation #R7234", 0) ∈
      [(sentKey "All booked! Confirmation #R7234", 0)] ∧
    (0 : Nat) ≤ 5000 ∧
    (∀ q ∈ [(sentKey "All booked! Confirmation #R7234", (0 : Nat))],
      q.1 = sentKey "All booked! Confirmation #R7234" → q.2 + 10000 ≤ 5000 →
      q.2 + 10000 ≤ 0) ∧
    (let r := handleMessage ⟨"chatG", "poke"⟩ (.ok .FORWARD) 5000
        ⟨.PLANNING, [], [(sentKey "All booked! Confirmation #R7234", 0)]⟩
        ⟨"Poke", some "All booked! Confirmation #R7234", "iMessage;-;poke", false⟩
     r.status = .ok () ∧ groupSends r.effects = [] ∧
     pokeSends r.effects = [] ∧
     r.state = ⟨.PLANNING, [], [(sentKey "All booked! Confirmation #R7234", 0)]⟩) :=
  ⟨by decide, by decide, by decide, List.mem_singleton.mpr rfl, by decide,
    by decide,
    C6_dedup_drop ⟨"chatG", "poke"⟩ (.ok .FORWARD)
      ⟨.PLANNING, [], [(sentKey "All booked! Confirmation #R7234", 0)]⟩ 5000 0
      "Poke" "iMessage;-;poke" "All booked! Confirmation #R7234"
      (by decide) (by decide) (by decide) (List.mem_singleton.mpr rfl)
      (by decide) (by decide)⟩

/-- C7: in every trace `handleMessage` can produce — any configuration,
oracle outcome, clock, state, and message — each send effect's
fingerprint has been registered with the dedup guard earlier in the
trace: the scanner `guardOk`, which walks the trace in program order and
requires every sent text's fingerprint to be already marked, accepts. -/
theorem C7_mark_before_send (cfg : BridgeConfig)
    (oracle : Except String JudgeAction) (now : Nat) (st : RouterState)
    (msg : InMsg) :
    guardOk [] (handleMessage cfg oracle now st msg).effects = true := by
  rcases msg with ⟨sender, text, chatId, fromMe⟩
  cases text with
  | none => rfl
  | some t =>
    by_cases h1 : jsTrim t = ""
    · simp [handleMessage, h1, guardOk]
    cases fromMe with
    | true => simp [handleMessage, h1, guardOk]
    | false =>
      by_cases h2 : chatId = cfg.groupChatId
      · cases oracle with
        | error e => simp [handleMessage, h1, h2, guardOk]
        | ok action =>
          by_cases h3 : action = .IGNORE
          · simp [handleMessage, h1, h2, h3, guardOk]
          · simp [handleMessage, h1, h2, h3, guardOk]
      · by_cases h4 : isPokeDM cfg chatId
        · by_cases h5 : wasSentByUs st.recent now t
          · simp [handleMessage, h1, h2, h4, h5, guardOk]
          · simp [handleMessage, h1, h2, h4, h5, guardOk]
        · simp [handleMessage, h1, h2, h4, guardOk]

/-! ### Buffer lemmas for C8 -/

theorem evictOver_eq_drop (b : List TranscriptEntry) :
    evictOver b = b.drop (b.length - MAX_BUFFER) := by
  induction b with
  | nil => rfl
  | cons x xs ih =>
    rw [evictOver]
    by_cases h : (x :: xs).length > MAX_BUFFER
    · rw [if_pos h, ih]
      have hlen : (x :: xs).length - MAX_BUFFER = (xs.length - MAX_BUFFER) + 1 := by
        simp only [List.length_cons] at h ⊢
        omega
      rw [hlen, List.drop_succ_cons]
    · rw [if_neg h]
      have hlen : (x :: xs).length - MAX_BUFFER = 0 := by
        simp only [List.length_cons] at h ⊢
        omega
      rw [hlen, List.drop_zero]

theorem bufferOfPushes_eq_drop (es : List TranscriptEntry) :
    bufferOfPushes es = es.drop (es.length - MAX_BUFFER) := by
  induction es using List.reverseRecOn with
  | nil => rfl
  | append_singleton es e ih =>
    have hfold : bufferOfPushes (es ++ [e]) = pushBuffer (bufferOfPushes es) e := by
      simp [bufferOfPushes, List.foldl_append]
    rw [hfold, ih, pushBuffer, evictOver_eq_drop]
    rw [← List.drop_append_of_le_length (Nat.sub_le es.length MAX_BUFFER)]
    rw [List.drop_drop]
    congr 1
    simp only [List.length_append, List.length_drop, List.length_cons,
      List.length_nil, MAX_BUFFER]
    omega

/-- C8: pushing 25 entries into an empty Transcript Buffer leaves exactly
the last 20 in their original relative order (the first 5 absent when the
entries are distinct); in general the buffer never exceeds the capacity
of 20 and eviction is always from the front (the content after any
sequence of pushes is a suffix of the pushed sequence). -/
theorem C8_buffer_fifo (es : List TranscriptEntry) (h : es.length = 25) :
    bufferOfPushes es = es.drop 5 ∧
    (bufferOfPushes es).length = 20 ∧
    (es.Nodup → ∀ e ∈ es.take 5, e ∉ bufferOfPushes es) ∧
    ∀ fs : List TranscriptEntry,
      (bufferOfPushes fs).length ≤ MAX_BUFFER ∧
      bufferOfPushes fs = fs.drop (fs.length - MAX_BUFFER) := by
  have h5 : es.length - MAX_BUFFER = 5 := by rw [h]; rfl
  have heq : bufferOfPushes es = es.drop 5 := by
    rw [bufferOfPushes_eq_drop, h5]
  refine ⟨heq, ?_, ?_, ?_⟩
  · rw [heq, List.length_drop, h]
  · intro hnd e hmem hdrop
    rw [heq] at hdrop
    have hsplit : es = es.take 5 ++ es.drop 5 := (List.take_append_drop 5 es).symm
    have hnd2 : (es.take 5 ++ es.drop 5).Nodup := by rw [← hsplit]; exact hnd
    exact (List.nodup_append.mp hnd2).2.2 hmem hdrop
  · intro fs
    refine ⟨?_, bufferOfPushes_eq_drop fs⟩
    rw [bufferOfPushes_eq_drop, List.length_drop]
    simp [MAX_BUFFER]
    omega

/-- 25 distinct sample entries for the C8 witness. -/
def sampleEntries : List TranscriptEntry :=
  (List.range 25).map fun n => ⟨"u", Nat.repr n⟩

/-- C8 witness: the theorem at the 25 concrete sample entries. -/
theorem C8_buffer_fifo_witness :
    sampleEntries.length = 25 ∧
    (bufferOfPushes sampleEntries = sampleEntries.drop 5 ∧
     (bufferOfPushes sampleEntries).length = 20 ∧
     (sampleEntries.Nodup → ∀ e ∈ sampleEntries.take 5, e ∉ bufferOfPushes sampleEntries) ∧
     ∀ fs : List TranscriptEntry,
       (bufferOfPushes fs).length ≤ MAX_BUFFER ∧
       bufferOfPushes fs = fs.drop (fs.length - MAX_BUFFER)) :=
  ⟨by decide, C8_buffer_fifo sampleEntries (by decide)⟩

/-- C9: on an inbound group message classified IGNORE the router sends
nothing to either channel and the classifier state is unchanged, yet the
message is still appended to the Transcript Buffer — and the append
happens for every classification outcome (any action, or a thrown
classification error), since the push precedes the classify call. -/
theorem C9_ignore_frame (cfg : BridgeConfig) (st : RouterState) (now : Nat)
    (sender chatId text : String)
    (hnb : ¬ jsTrim text = "") (hch : chatId = cfg.groupChatId) :
    (let r := handleMessage cfg (.ok .IGNORE) now st
        ⟨sender, some text, chatId, false⟩
     pokeSends r.effects = [] ∧ groupSends r.effects = [] ∧
     r.status = .ok () ∧
     r.state.judge = st.judge ∧
     r.state.buffer = pushBuffer st.buffer ⟨sender, text⟩) ∧
    ∀ oracle : Except String JudgeAction,
      (handleMessage cfg oracle now st
        ⟨sender, some text, chatId, false⟩).state.buffer =
        pushBuffer st.buffer ⟨sender, text⟩ := by
  subst hch
  constructor
  · refine ⟨?_, ?_, ?_, ?_, ?_⟩ <;>
      simp [handleMessage, hnb, pokeSends, groupSends, applyTransition]
  · intro oracle
    cases oracle with
    | error e => simp [handleMessage, hnb]
    | ok action =>
      by_cases h3 : action = .IGNORE
      · simp [handleMessage, hnb, h3]
      · simp [handleMessage, hnb, h3]

/-- C9 witness: the theorem at the spec's scenario A input. -/
theorem C9_ignore_frame_witness :
    (¬ jsTrim "hey whats up" = "") ∧
    ("g" : String) = (⟨"g", "p"⟩ : BridgeConfig).groupChatId ∧
    ((let r := handleMessage ⟨"g", "p"⟩ (.ok .IGNORE) 0 ⟨.IDLE, [], []⟩
        ⟨"bob", some "hey whats up", "g", false⟩
      pokeSends r.effects = [] ∧ groupSends r.effects = [] ∧
      r.status = .ok () ∧
      r.state.judge = (⟨.IDLE, [], []⟩ : RouterState).judge ∧
      r.state.buffer = pushBuffer [] ⟨"bob", "hey whats up"⟩) ∧
     ∀ oracle : Except String JudgeAction,
      (handleMessage ⟨"g", "p"⟩ oracle 0 ⟨.IDLE, [], []⟩
        ⟨"bob", some "hey whats up", "g", false⟩).state.buffer =
        pushBuffer [] ⟨"bob", "hey whats up"⟩) :=
  ⟨by decide, rfl,
    C9_ignore_frame ⟨"g", "p"⟩ ⟨.IDLE, [], []⟩ 0 "bob" "g" "hey whats up"
      (by decide) rfl⟩

/-- C10: the classifier's state transition depends only on the returned
action — two classify runs (any oracles, messages, directions) whose
oracles return the same action from the same state land in the same next
state — and in particular an outbound classify call whose oracle returns
FORWARD while the state is IDLE transitions the state to PLANNING, even
though the spec declares outbound-while-IDLE an undefined input. -/
theorem C10_transition_action_only
    (o o' : String → MessageDirection → JudgeState → JudgeAction)
    (m m' : String) (d d' : MessageDirection) (s : JudgeState)
    (h : o m d s = o' m' d' s) :
    (classify o m d s).2 = (classify o' m' d' s).2 ∧
    ∀ mo : String,
      (classify (fun _ _ _ => .FORWARD) mo .outbound .IDLE).2 = .PLANNING := by
  constructor
  · simp only [classify, h]
  · intro mo
    rfl

/-- C10 witness: the theorem at concrete oracles and inputs. -/
theorem C10_transition_action_only_witness :
    ((fun (_ : String) (_ : MessageDirection) (_ : JudgeState) =>
        JudgeAction.IGNORE) "a" .inbound .IDLE =
      (fun (_ : String) (_ : MessageDirection) (_ : JudgeState) =>
        JudgeAction.IGNORE) "b" .outbound .IDLE) ∧
    ((classify (fun _ _ _ => JudgeAction.IGNORE) "a" .inbound .IDLE).2 =
      (classify (fun _ _ _ => JudgeAction.IGNORE) "b" .outbound .IDLE).2 ∧
     ∀ mo : String,
      (classify (fun _ _ _ => .FORWARD) mo .outbound .IDLE).2 = .PLANNING) :=
  ⟨rfl,
    C10_transition_action_only (fun _ _ _ => JudgeAction.IGNORE)
      (fun _ _ _ => JudgeAction.IGNORE) "a" "b" .inbound .outbound .IDLE rfl⟩
